import Mathlib

/-!
Shallow embedding of the momentum/forecast core of the Momentum FC web
application (`src/app.py`): the pressure calculator, forecast engine,
chart renderer, minute estimator, snapshot trimming, and the poll cycle's
match bookkeeping.  Machine arithmetic from the Python source is modelled
with exact integers (ℤ/ℕ) and rationals (ℚ); Python floats become exact
rationals, `int(x)` becomes truncation toward zero, and fallible
operations (timestamp parsing, the regression fit) become `Option`.
-/

namespace MomentumFC

/-- Embedding of `np.clip(x, lo, hi)`: values below `lo` become `lo`,
values above `hi` become `hi` (evaluated as `min hi (max lo x)`). -/
def np_clip (x lo hi : ℚ) : ℚ := min hi (max lo x)

/-- One row of the `snapshots` table, restricted to the fields the core
computations read (`minute`, `score_home`, `score_away`,
`pressure_index`); the row id, match id and timestamp are carried
elsewhere in the model. -/
structure Snapshot where
  minute : ℤ
  score_home : ℤ
  score_away : ℤ
  pressure_index : ℚ
deriving DecidableEq

/-- The `snapshot_data` dict passed to `calculate_pressure_index`
(`{'minute': ..., 'score_home': ..., 'score_away': ...}`). -/
structure SnapData where
  minute : ℤ
  score_home : ℤ
  score_away : ℤ
deriving DecidableEq

/-- Embedding of `calculate_pressure_index(snapshot_data, previous_snapshots)`
from `src/app.py` lines 124-142.  `previous_snapshots` is the list of prior
rows ordered most-recent first (the caller fetches `ORDER BY timestamp DESC`);
the code reads only its head. -/
def calculate_pressure_index (snapshot_data : SnapData)
    (previous_snapshots : List Snapshot) : ℚ :=
  let minute := snapshot_data.minute
  let score_home := snapshot_data.score_home
  let score_away := snapshot_data.score_away
  let base_pressure : ℚ := ((minute : ℚ) / 90) * 20
  let score_diff : ℤ := score_home - score_away
  let score_impact : ℚ := np_clip ((score_diff : ℚ) * 30) (-60) 60
  let trend_impact : ℚ :=
    match previous_snapshots with
    | [] => 0
    | last :: _ =>
        (if score_home > last.score_home then (40 : ℚ) else 0)
          + (if score_away > last.score_away then (-40 : ℚ) else 0)
  np_clip (base_pressure + score_impact + trend_impact) (-100) 100

/-- Python `int(x)` on a real value: truncation toward zero. -/
def truncQ (x : ℚ) : ℤ := if 0 ≤ x then ⌊x⌋ else ⌈x⌉

/-- Embedding of the minute computation in `poll_live_matches`
(`src/app.py` lines 270-288).  The `datetime.fromisoformat` parse of the
kickoff timestamp is modelled by its outcome: `none` when the field is
missing, empty or malformed (any exception in the `try` block), `some k`
when it parses to the instant `k` in seconds.  `now` is the wall clock in
seconds.  On parse failure the code falls back to `minute = 45`; otherwise
`minute = int(total_seconds / 60)` clamped by `max(1, min(minute, 120))`. -/
def estimate_minute (kickoff : Option ℤ) (now : ℤ) : ℤ :=
  match kickoff with
  | none => 45
  | some k => max 1 (min (truncQ (((now - k : ℤ) : ℚ) / 60)) 120)

/-- Weighted sum Σ i·yᵢ with x-index starting at `k`: the Σxy moment of the
least-squares fit, mirroring `np.polyfit(x, y, 1)` with `x = list(range(len(y)))`. -/
def dotIdx : ℕ → List ℚ → ℚ
  | _, [] => 0
  | k, a :: t => (k : ℚ) * a + dotIdx (k + 1) t

/-- Index sum Σ_{i<n} i as a rational: the Σx moment of the fit. -/
def sxSum : ℕ → ℚ
  | 0 => 0
  | n + 1 => sxSum n + (n : ℚ)

/-- Index square sum Σ_{i<n} i² as a rational: the Σx² moment of the fit. -/
def sxxSum : ℕ → ℚ
  | 0 => 0
  | n + 1 => sxxSum n + (n : ℚ) ^ 2

/-- Embedding of `np.polyfit(x, y, 1)` with `x = list(range(len(y)))`:
the exact degree-1 least-squares solution via the normal equations.
Returns `none` when the normal system is singular (n ≤ 1), the situation
in which the fit has no unique solution. -/
def np_polyfit1 (y : List ℚ) : Option (ℚ × ℚ) :=
  let n : ℚ := (y.length : ℚ)
  let sx := sxSum y.length
  let sxx := sxxSum y.length
  let sy := y.sum
  let sxy := dotIdx 0 y
  let den := n * sxx - sx ^ 2
  if den = 0 then none
  else
    let slope := (n * sxy - sx * sy) / den
    let intercept := (sy - slope * sx) / n
    some (slope, intercept)

/-- Embedding of `np.var(y)`: the mean of squared deviations from the mean
(divisor `n`, numpy's default `ddof = 0`). -/
def np_var (y : List ℚ) : ℚ :=
  let n : ℚ := (y.length : ℚ)
  let mean := y.sum / n
  ((y.map fun v => (v - mean) ^ 2).sum) / n

/-- The dict returned by `get_forecast`. -/
structure Forecast where
  level : String
  probability : ℤ
  explanation : String
deriving DecidableEq

/-- Fixed-point decimal rendering of a rational with `d` digits, rounding
half to even, used for the `f"{slope:.2f}"` / `f"{variance:.1f}"` pieces of
the forecast explanation.  (The Python original formats IEEE-754 doubles;
this exact-rational rendering is the idealisation of that formatting and is
not load-bearing for any verified property.) -/
def fmtFixed (q : ℚ) (d : ℕ) : String :=
  let scaled : ℚ := q * (10 : ℚ) ^ d
  let fl : ℤ := ⌊scaled⌋
  let frac : ℚ := scaled - (fl : ℚ)
  let n : ℤ :=
    if frac < 1 / 2 then fl
    else if 1 / 2 < frac then fl + 1
    else if fl % 2 = 0 then fl else fl + 1
  let sign := if n < 0 then "-" else ""
  let m := n.natAbs
  let ip := m / 10 ^ d
  let fp := m % 10 ^ d
  let fs := toString fp
  let pad := String.mk (List.replicate (d - fs.length) '0')
  if d = 0 then sign ++ toString ip
  else sign ++ toString ip ++ "." ++ pad ++ fs

/-- The list `y = [s['pressure_index'] for s in snapshots[-10:]]`: the
pressure indices of the last 10 (or fewer) snapshots. -/
def lastPressures (snapshots : List Snapshot) : List ℚ :=
  (snapshots.drop (snapshots.length - 10)).map fun s => s.pressure_index

/-- Variant of `get_forecast` (`src/app.py` lines 144-171) with the fallible fit
abstracted as a parameter, so that the `except` branch (fit fails for a
numerical reason) is a reachable case of the model.  The real function is
`get_forecast = get_forecastWith np_polyfit1`. -/
def get_forecastWith (fit : List ℚ → Option (ℚ × ℚ))
    (snapshots : List Snapshot) : Forecast :=
  if snapshots.length < 3 then
    ⟨"Inconclusive", 0, "Insufficient data for trend analysis."⟩
  else
    let y : List ℚ := lastPressures snapshots
    match fit y with
    | none => ⟨"Moderate", 50, "Calculating..."⟩
    | some (slope, _intercept) =>
        let variance := np_var y
        let volatility_penalty := min (variance / 10) 20
        let probability := min (max (50 + slope * 10 - volatility_penalty) 0) 100
        let level :=
          if slope > 1 then "High"
          else if slope > -1 then "Moderate"
          else "Low"
        let explanation :=
          "Slope: " ++ fmtFixed slope 2 ++ ", Var: " ++ fmtFixed variance 1 ++ ". "
            ++ (if slope > 0 then "Upward trend." else "Downward pressure.")
        ⟨level, truncQ probability, explanation⟩

/-- Embedding of `get_forecast(snapshots)` from `src/app.py` lines 144-171. -/
def get_forecast (snapshots : List Snapshot) : Forecast :=
  get_forecastWith np_polyfit1 snapshots

/-- The point list of `generate_svg_chart` (`src/app.py` lines 173-190):
point `i` of the polyline is
`(padding + i*(width - 2*padding)/max(len-1, 1), height/2 - pressure*(height/2 - padding)/100)`. -/
def chartPoints (snapshots : List Snapshot) (width height padding : ℚ) :
    List (ℚ × ℚ) :=
  snapshots.enum.map fun p =>
    (padding + (p.1 : ℚ) * (width - 2 * padding) / ((max (snapshots.length - 1) 1 : ℕ) : ℚ),
     height / 2 - p.2.pressure_index * (height / 2 - padding) / 100)

/-- Embedding of `generate_svg_chart(snapshots, width, height, padding, color)`:
the SVG string is abstracted to its geometric content, the polyline's point
list; the empty-input early return of `""` becomes `none`. -/
def generate_svg_chart (snapshots : List Snapshot) (width height padding : ℚ) :
    Option (List (ℚ × ℚ)) :=
  if snapshots = [] then none
  else some (chartPoints snapshots width height padding)

/-- Embedding of `generate_sparkline`: the same renderer at the compact
preset; only `width/height/padding/color` change. -/
def generate_sparkline (snapshots : List Snapshot) : Option (List (ℚ × ℚ)) :=
  generate_svg_chart snapshots 120 40 5

/-- One row of the `matches` table (fields written by the poll cycle). -/
structure MatchRow where
  id : ℕ
  name : String
  home_team : String
  away_team : String
  status : String
  utc_date : String
  score_home : ℤ
  score_away : ℤ
deriving DecidableEq

/-- The status allow-list of the cleanup UPDATE in `poll_live_matches`
(`src/app.py` line 243): `('LIVE', 'IN_PLAY', 'TIMED', 'STARTING')`. -/
def active_statuses : List String := ["LIVE", "IN_PLAY", "TIMED", "STARTING"]

/-- Effect on one stored row of
`UPDATE matches SET status='FINISHED' WHERE status IN (...) AND id NOT IN (seen)`
(`src/app.py` lines 242-248; when `seen_ids` is empty the code issues the
same UPDATE without the `NOT IN` clause, which coincides with this function
at `seen = []`). -/
def markFinishedRow (seen : List ℕ) (r : MatchRow) : MatchRow :=
  if r.status ∈ active_statuses ∧ r.id ∉ seen then
    { r with status := "FINISHED" }
  else r

/-- One match object of the upstream feed (or a synthetic demo record),
with the fields `poll_live_matches` reads.  `scoreHome`/`scoreAway` are
`score.fullTime.home/away` (`none` for JSON null or missing), `competition`
is `competition.id` (`none` when the record carries no competition dict),
and `kickoff` is the outcome of parsing `utcDate`
(`none` = missing/malformed, `some k` = the parsed instant in seconds). -/
structure FeedMatch where
  id : ℕ
  homeName : String
  awayName : String
  status : String
  scoreHome : Option ℤ
  scoreAway : Option ℤ
  utcDate : String
  kickoff : Option ℤ
  competition : Option ℕ
deriving DecidableEq

/-- The competition allow-list `TOP_COMPETITIONS` parsed to ids
(`src/app.py` lines 32 and 234). -/
def top_comp_ids : List ℕ := [2021, 2014, 2001, 2002, 2019, 2015]

/-- The competition allow-list filter of `src/app.py` line 237: keep a
record only when it carries a competition dict whose id is in
`top_comp_ids`. -/
def feedAllowed (m : FeedMatch) : Bool :=
  match m.competition with
  | some c => top_comp_ids.contains c
  | none => false

/-- The synthetic records used in demo mode (`src/app.py` lines 206-211).
They carry no `competition` key, hence `competition := none`; their
`utcDate` is `str(datetime.now())`, abstracted here to a fixed label. -/
def demo_matches : List FeedMatch :=
  [{ id := 1001, homeName := "Demo United", awayName := "Mock City",
     status := "LIVE", scoreHome := some 2, scoreAway := some 1,
     utcDate := "now", kickoff := none, competition := none },
   { id := 1002, homeName := "Synthetic FC", awayName := "Silicon Real",
     status := "LIVE", scoreHome := some 0, scoreAway := some 0,
     utcDate := "now", kickoff := none, competition := none }]

/-- The in-memory image of the two tables the poll cycle writes: the
`matches` rows, and the `snapshots` rows as `(match_id, snapshot)` pairs in
insertion (= timestamp) order. -/
structure AppState where
  match_rows : List MatchRow
  snapshots : List (ℕ × Snapshot)
deriving DecidableEq

/-- The INSERT ... ON CONFLICT(id) DO UPDATE of `src/app.py` lines 261-265:
a new id appends a full row; an existing id updates only `status`,
`score_home`, `score_away` (and `last_updated`, not modelled). -/
def upsertMatch (rows : List MatchRow) (r : MatchRow) : List MatchRow :=
  if rows.any fun old => old.id = r.id then
    rows.map fun old =>
      if old.id = r.id then
        { old with status := r.status, score_home := r.score_home,
                   score_away := r.score_away }
      else old
  else rows ++ [r]

/-- The per-match snapshot-store cap (`LIMIT -1 OFFSET 2000`). -/
def SNAPSHOT_CAP : ℕ := 2000

/-- The snapshot rows of one match, in timestamp order. -/
def snapshotsFor (snaps : List (ℕ × Snapshot)) (mid : ℕ) : List Snapshot :=
  (snaps.filter fun p => p.1 = mid).map fun p => p.2

/-- Delete the first (oldest) `k` snapshot rows of match `mid`, keeping
every other row: the effect of the trim DELETE on the global table. -/
def dropOldestFor (mid : ℕ) : ℕ → List (ℕ × Snapshot) → List (ℕ × Snapshot)
  | 0, l => l
  | _ + 1, [] => []
  | k + 1, p :: t =>
      if p.1 = mid then dropOldestFor mid k t
      else p :: dropOldestFor mid (k + 1) t

/-- The trim DELETE of `src/app.py` line 294: remove all but the 2000 most
recent snapshots of match `mid` (rows are in timestamp order, so the oldest
are the first occurrences). -/
def trimMatchSnapshots (snaps : List (ℕ × Snapshot)) (mid : ℕ) : List (ℕ × Snapshot) :=
  dropOldestFor mid ((snapshotsFor snaps mid).length - SNAPSHOT_CAP) snaps

/-- The body of the per-match loop of `poll_live_matches`
(`src/app.py` lines 250-294) for one feed record `m`: upsert the match row,
fetch the previous snapshots most-recent first, estimate the minute,
compute the pressure index, insert the snapshot, trim. -/
def processMatch (now : ℤ) (st : AppState) (m : FeedMatch) : AppState :=
  let score_home : ℤ := m.scoreHome.getD 0
  let score_away : ℤ := m.scoreAway.getD 0
  let row : MatchRow :=
    { id := m.id, name := m.homeName ++ " vs " ++ m.awayName,
      home_team := m.homeName, away_team := m.awayName, status := m.status,
      utc_date := m.utcDate, score_home := score_home, score_away := score_away }
  let matches1 := upsertMatch st.match_rows row
  let prev_snapshots := ((snapshotsFor st.snapshots m.id).reverse).take 20
  let minute := estimate_minute m.kickoff now
  let p_index := calculate_pressure_index
    ⟨minute, score_home, score_away⟩ prev_snapshots
  let snaps1 := st.snapshots
    ++ [(m.id, ⟨minute, score_home, score_away, p_index⟩)]
  ⟨matches1, trimMatchSnapshots snaps1 m.id⟩

/-- What the fetch of the live feed produced this cycle: a 200 response
with a match list, a non-2xx response, or a raised exception
(network error / timeout). -/
inductive FetchOutcome
  | ok (ms : List FeedMatch)
  | httpError (code : ℕ) (msg : String)
  | connError (msg : String)
deriving DecidableEq

/-- How the cycle obtained its matches: demo mode (no real API key) with
the synthetic records, or a real fetch with its outcome. -/
inductive PollInput
  | demo
  | real (o : FetchOutcome)
deriving DecidableEq

/-- The observable result of one cycle: the new table state and the
`api_status` fields the cycle wrote. -/
structure PollResult where
  state : AppState
  status : String
  error : Option String
deriving DecidableEq

/-- The persistence block of `poll_live_matches`
(`src/app.py` lines 230-295): filter the feed by the competition
allow-list, mark previously active matches that disappeared as FINISHED,
then run the per-match loop. -/
def persistCycle (now : ℤ) (ms : List FeedMatch) (st : AppState) : AppState :=
  let filtered := ms.filter feedAllowed
  let seen_ids := filtered.map fun m => m.id
  let st1 : AppState :=
    ⟨st.match_rows.map (markFinishedRow seen_ids), st.snapshots⟩
  filtered.foldl (processMatch now) st1

/-- Embedding of one run of `poll_live_matches` (`src/app.py` lines
196-298), excluding the downstream `score_predictions` call.  Demo mode
and fetch failure set `api_status` and (for failures) return before any
database work. -/
def poll_live_matches (now : ℤ) (inp : PollInput) (st : AppState) : PollResult :=
  match inp with
  | .demo =>
      ⟨persistCycle now demo_matches st, "Demo Mode",
       some "Using synthetic data. Add a real API key in .env to see live matches."⟩
  | .real (.httpError code msg) =>
      ⟨st, "API Error", some ("Error " ++ toString code ++ ": " ++ msg)⟩
  | .real (.connError msg) =>
      ⟨st, "Connection Error", some ("Failed to connect to API: " ++ msg)⟩
  | .real (.ok ms) =>
      ⟨persistCycle now ms st, "Healthy", none⟩

/-- The per-match view of the trim DELETE: order the match's rows by
timestamp descending, keep the first `SNAPSHOT_CAP`, delete the rest —
i.e. keep the `SNAPSHOT_CAP` most recent rows. -/
def trimStore (store : List Snapshot) : List Snapshot :=
  ((store.reverse).take SNAPSHOT_CAP).reverse

/-- One poll cycle's effect on one match's snapshot history: append the
new snapshot (timestamps increase cycle over cycle), then trim. -/
def storeStep (store : List Snapshot) (s : Snapshot) : List Snapshot :=
  trimStore (store ++ [s])

/-- The snapshot history of a match after its snapshots were inserted one
per cycle, in timestamp order, starting from an empty history. -/
def runStore (inserted : List Snapshot) : List Snapshot :=
  inserted.foldl storeStep []

/-! # Theorems -/

/-- The code's `np.clip(x, lo, hi)` coincides with the spec's `clamp(x, lo, hi)`
(`max lo (min hi x)`) whenever `lo ≤ hi`. -/
lemma np_clip_eq_clamp (x lo hi : ℚ) (h : lo ≤ hi) :
    np_clip x lo hi = max lo (min hi x) := by
  unfold np_clip
  rw [min_max_distrib_left, min_eq_right h]

/-- C1: for every input `{minute, score_home, score_away}` and every list of
prior snapshots (most recent first), the pressure calculator returns exactly
`clamp(base + score_impact + trend_impact, -100, 100)` with
`base = (minute/90)*20`, `score_impact = clamp((score_home-score_away)*30, -60, 60)`,
and `trend_impact` = +40 if the home score exceeds the most recent prior
snapshot's, plus −40 if the away score does (0 with no prior snapshot);
the result depends only on the most recent prior snapshot; and minute 45
with equal scores and no prior snapshot gives exactly 10. -/
theorem calculate_pressure_index_spec_C1 :
    (∀ (d : SnapData) (prev : List Snapshot),
      calculate_pressure_index d prev =
        max (-100) (min 100
          (((d.minute : ℚ) / 90) * 20
            + max (-60) (min 60 (((d.score_home : ℚ) - (d.score_away : ℚ)) * 30))
            + (match prev with
               | [] => (0 : ℚ)
               | last :: _ =>
                   (if last.score_home < d.score_home then (40 : ℚ) else 0)
                     + (if last.score_away < d.score_away then (-40 : ℚ) else 0))))) ∧
    (∀ (d : SnapData) (p : Snapshot) (rest : List Snapshot),
      calculate_pressure_index d (p :: rest) = calculate_pressure_index d [p]) ∧
    (∀ k : ℤ, calculate_pressure_index ⟨45, k, k⟩ [] = 10) := by
  refine ⟨?_, ?_, ?_⟩
  · intro d prev
    unfold calculate_pressure_index
    rw [np_clip_eq_clamp _ _ _ (by norm_num), np_clip_eq_clamp _ _ _ (by norm_num)]
    cases prev with
    | nil => push_cast; ring_nf
    | cons last rest => push_cast; ring_nf
  · intro d p rest
    rfl
  · intro k
    unfold calculate_pressure_index np_clip
    simp only [sub_self, Int.cast_zero, zero_mul]
    norm_num

/-- C9: for every snapshot sequence of length strictly less than 3, the
forecast returns level "Inconclusive", probability 0 and explanation
"Insufficient data for trend analysis.". -/
theorem get_forecast_insufficient_C9 (snapshots : List Snapshot)
    (h : snapshots.length < 3) :
    get_forecast snapshots =
      ⟨"Inconclusive", 0, "Insufficient data for trend analysis."⟩ := by
  unfold get_forecast get_forecastWith
  rw [if_pos h]

/-- Witness for C9 at the empty sequence. -/
theorem get_forecast_insufficient_C9_witness :
    ([] : List Snapshot).length < 3 ∧
    get_forecast [] = ⟨"Inconclusive", 0, "Insufficient data for trend analysis."⟩ :=
  ⟨by decide, get_forecast_insufficient_C9 [] (by decide)⟩

/-- C8: for every snapshot sequence of length at least 3, whenever the
regression fit fails (returns no coefficients), the forecast returns level
"Moderate", probability 50 and explanation "Calculating..."; the fit's
failure is absorbed (the function is total and the caller sees the fallback
value, never a failure). -/
theorem get_forecast_fit_failure_C8 (fit : List ℚ → Option (ℚ × ℚ))
    (snapshots : List Snapshot) (h3 : 3 ≤ snapshots.length)
    (hfail : fit (lastPressures snapshots) = none) :
    get_forecastWith fit snapshots = ⟨"Moderate", 50, "Calculating..."⟩ := by
  unfold get_forecastWith
  rw [if_neg (by omega)]
  simp only [hfail]

/-- Witness for C8: a constantly-failing fit on a concrete 3-snapshot
sequence yields the fallback forecast. -/
theorem get_forecast_fit_failure_C8_witness :
    3 ≤ (List.replicate 3 (⟨1, 0, 0, 0⟩ : Snapshot)).length ∧
    (fun _ : List ℚ => (none : Option (ℚ × ℚ)))
        (lastPressures (List.replicate 3 ⟨1, 0, 0, 0⟩)) = none ∧
    get_forecastWith (fun _ => none) (List.replicate 3 ⟨1, 0, 0, 0⟩) =
      ⟨"Moderate", 50, "Calculating..."⟩ :=
  ⟨by decide, rfl,
    get_forecast_fit_failure_C8 (fun _ => none) (List.replicate 3 ⟨1, 0, 0, 0⟩)
      (by decide) rfl⟩

/-- C7: the minute estimator is total; a missing or malformed kickoff
timestamp (parse outcome `none`) yields minute 45, and a parsed kickoff
yields `floor((now - kickoff)/60 minutes)` clamped to `[1, 120]` (the
code's truncation toward zero coincides with the floor under the clamp). -/
theorem estimate_minute_spec_C7 :
    (∀ now : ℤ, estimate_minute none now = 45) ∧
    (∀ k now : ℤ, estimate_minute (some k) now =
      max 1 (min ⌊((now : ℚ) - (k : ℚ)) / 60⌋ 120)) := by
  constructor
  · intro now
    rfl
  · intro k now
    unfold estimate_minute truncQ
    push_cast
    set x : ℚ := ((now : ℚ) - (k : ℚ)) / 60 with hx
    split
    · rfl
    · rename_i hneg
      push_neg at hneg
      have hceil : ⌈x⌉ ≤ 0 := Int.ceil_le.mpr (by exact_mod_cast hneg.le)
      have hfl : ⌊x⌋ ≤ 0 := Int.floor_nonpos hneg.le
      rw [min_eq_left (by omega), min_eq_left (by omega),
          max_eq_left (by omega), max_eq_left (by omega)]

/-- C6: on a poll cycle whose feed fetch fails — a non-2xx HTTP response or
a raised network error/timeout — the cycle records the corresponding error
status and message and performs no match writes and no snapshot writes:
the table state is returned unchanged. -/
theorem poll_fetch_error_C6 (now : ℤ) (st : AppState) (code : ℕ) (msg : String) :
    ((poll_live_matches now (.real (.httpError code msg)) st).state = st ∧
     (poll_live_matches now (.real (.httpError code msg)) st).status = "API Error" ∧
     (poll_live_matches now (.real (.httpError code msg)) st).error =
       some ("Error " ++ toString code ++ ": " ++ msg)) ∧
    ((poll_live_matches now (.real (.connError msg)) st).state = st ∧
     (poll_live_matches now (.real (.connError msg)) st).status = "Connection Error" ∧
     (poll_live_matches now (.real (.connError msg)) st).error =
       some ("Failed to connect to API: " ++ msg)) :=
  ⟨⟨rfl, rfl, rfl⟩, ⟨rfl, rfl, rfl⟩⟩

/-- C10: the chart renderer returns an empty result on empty input; on
non-empty input it returns the polyline whose point `i` sits at
`x = padding + i*(width - 2*padding)/max(n-1, 1)` and
`y = height/2 - pressure*(height/2 - padding)/100`; hence a single snapshot
maps to the left padding edge, pressure 0 maps to the vertical center, and
pressures +100/−100 map to the padded top/bottom extremes. -/
theorem generate_svg_chart_mapping_C10 :
    (∀ w h p : ℚ, generate_svg_chart [] w h p = none) ∧
    (∀ (snaps : List Snapshot) (w h p : ℚ), snaps ≠ [] →
      generate_svg_chart snaps w h p = some (chartPoints snaps w h p)) ∧
    (∀ (snaps : List Snapshot) (w h p : ℚ) (i : ℕ) (s : Snapshot),
      snaps[i]? = some s →
      (chartPoints snaps w h p)[i]? =
        some (p + (i : ℚ) * (w - 2 * p) / ((max (snaps.length - 1) 1 : ℕ) : ℚ),
              h / 2 - s.pressure_index * (h / 2 - p) / 100)) ∧
    (∀ (s : Snapshot) (w h p : ℚ),
      chartPoints [s] w h p = [(p, h / 2 - s.pressure_index * (h / 2 - p) / 100)]) ∧
    (∀ (snaps : List Snapshot) (w h p : ℚ) (i : ℕ) (s : Snapshot),
      snaps[i]? = some s → s.pressure_index = 0 →
      ((chartPoints snaps w h p)[i]?).map Prod.snd = some (h / 2)) ∧
    (∀ (snaps : List Snapshot) (w h p : ℚ) (i : ℕ) (s : Snapshot),
      snaps[i]? = some s →
      (s.pressure_index = 100 →
        ((chartPoints snaps w h p)[i]?).map Prod.snd = some p) ∧
      (s.pressure_index = -100 →
        ((chartPoints snaps w h p)[i]?).map Prod.snd = some (h - p))) := by
  have hpt : ∀ (snaps : List Snapshot) (w h p : ℚ) (i : ℕ) (s : Snapshot),
      snaps[i]? = some s →
      (chartPoints snaps w h p)[i]? =
        some (p + (i : ℚ) * (w - 2 * p) / ((max (snaps.length - 1) 1 : ℕ) : ℚ),
              h / 2 - s.pressure_index * (h / 2 - p) / 100) := by
    intro snaps w h p i s hi
    unfold chartPoints
    rw [List.getElem?_map, List.getElem?_enum, hi]
    rfl
  refine ⟨?_, ?_, hpt, ?_, ?_, ?_⟩
  · intro w h p
    rfl
  · intro snaps w h p hne
    unfold generate_svg_chart
    rw [if_neg hne]
  · intro s w h p
    unfold chartPoints
    simp [List.enum]
  · intro snaps w h p i s hi hzero
    rw [hpt snaps w h p i s hi, hzero]
    simp
  · intro snaps w h p i s hi
    constructor
    · intro hhi
      rw [hpt snaps w h p i s hi, hhi]
      simp only [Option.map_some']
      congr 1
      ring
    · intro hlo
      rw [hpt snaps w h p i s hi, hlo]
      simp only [Option.map_some']
      congr 1
      ring

/-- Witness for C10 (the third conjunct has hypotheses): the single
point of a one-snapshot chart with pressure 30 at the full-chart preset. -/
theorem generate_svg_chart_mapping_C10_witness :
    (([(⟨50, 1, 0, 30⟩ : Snapshot)] : List Snapshot)[0]? = some ⟨50, 1, 0, 30⟩) ∧
    (chartPoints [⟨50, 1, 0, 30⟩] 600 200 20)[0]? =
      some (20 + (0 : ℚ) * (600 - 2 * 20) / ((max ((1 : ℕ) - 1) 1 : ℕ) : ℚ),
            200 / 2 - 30 * (200 / 2 - 20) / 100) :=
  ⟨rfl, generate_svg_chart_mapping_C10.2.2.1 [⟨50, 1, 0, 30⟩] 600 200 20 0 _ rfl⟩

/-- A stored row with an id different from the upserted record's id is
left in the table unchanged. -/
lemma mem_upsertMatch_of_ne (rows : List MatchRow) (r m : MatchRow)
    (hmem : r ∈ rows) (hne : r.id ≠ m.id) : r ∈ upsertMatch rows m := by
  unfold upsertMatch
  split
  · exact List.mem_map.mpr ⟨r, hmem, by rw [if_neg hne]⟩
  · exact List.mem_append_left _ hmem

/-- A stored row whose id is seen by none of the processed feed records
survives the per-match loop unchanged. -/
lemma mem_foldl_processMatch (now : ℤ) (ms : List FeedMatch) (st : AppState)
    (r : MatchRow) (hmem : r ∈ st.match_rows)
    (hid : ∀ m ∈ ms, r.id ≠ m.id) :
    r ∈ (ms.foldl (processMatch now) st).match_rows := by
  induction ms generalizing st with
  | nil => simpa using hmem
  | cons m t ih =>
    rw [List.foldl_cons]
    apply ih
    · exact mem_upsertMatch_of_ne _ _ _ hmem (hid m (by simp))
    · intro m' hm'
      exact hid m' (List.mem_cons_of_mem _ hm')

/-- C3 counterexample: the claim — on a successful poll cycle, every stored
match whose status is among LIVE, IN_PLAY, PAUSED, TIMED, STARTING and
whose id is absent from the allow-list-filtered feed gets status FINISHED —
is false: a stored PAUSED match is left PAUSED by a cycle with an empty
feed, because the code's cleanup UPDATE lists only
`('LIVE', 'IN_PLAY', 'TIMED', 'STARTING')`. -/
theorem poll_mark_finished_C3_counterexample :
    ¬ (∀ (now : ℤ) (ms : List FeedMatch) (st : AppState) (r : MatchRow),
        r ∈ st.match_rows →
        r.status ∈ ["LIVE", "IN_PLAY", "PAUSED", "TIMED", "STARTING"] →
        r.id ∉ (ms.filter feedAllowed).map (fun m => m.id) →
        ∃ r' ∈ (poll_live_matches now (.real (.ok ms)) st).state.match_rows,
          r'.id = r.id ∧ r'.status = "FINISHED") := by
  intro hcl
  obtain ⟨r', hmem, hid, hstat⟩ :=
    hcl 0 [] ⟨[⟨7, "n", "h", "a", "PAUSED", "d", 0, 0⟩], []⟩
      ⟨7, "n", "h", "a", "PAUSED", "d", 0, 0⟩ (by decide) (by decide) (by decide)
  have hrows : (poll_live_matches 0 (.real (.ok []))
        ⟨[⟨7, "n", "h", "a", "PAUSED", "d", 0, 0⟩], []⟩).state.match_rows
      = [⟨7, "n", "h", "a", "PAUSED", "d", 0, 0⟩] := by decide
  rw [hrows, List.mem_singleton] at hmem
  subst hmem
  exact absurd hstat (by decide)

/-- C3 amended: on every poll cycle in which the feed is successfully
obtained, every stored match whose status is one of the code's active
statuses — LIVE, IN_PLAY, TIMED, STARTING (PAUSED is not among them) —
and whose id does not appear among the feed's allow-list-filtered match
ids, has its status set to FINISHED. -/
theorem poll_mark_finished_amended_C3 (now : ℤ) (ms : List FeedMatch)
    (st : AppState) (r : MatchRow) (hmem : r ∈ st.match_rows)
    (hstat : r.status ∈ active_statuses)
    (hid : r.id ∉ (ms.filter feedAllowed).map (fun m => m.id)) :
    ∃ r' ∈ (poll_live_matches now (.real (.ok ms)) st).state.match_rows,
      r'.id = r.id ∧ r'.status = "FINISHED" := by
  refine ⟨{ r with status := "FINISHED" }, ?_, rfl, rfl⟩
  show { r with status := "FINISHED" } ∈ (persistCycle now ms st).match_rows
  unfold persistCycle
  apply mem_foldl_processMatch
  · exact List.mem_map.mpr ⟨r, hmem, by unfold markFinishedRow; rw [if_pos ⟨hstat, hid⟩]⟩
  · intro m hm heq
    exact hid (List.mem_map.mpr ⟨m, hm, heq.symm⟩)

/-- Witness for the amended C3: a stored LIVE match absent from an empty
feed is finished by the cycle. -/
theorem poll_mark_finished_amended_C3_witness :
    (⟨7, "n", "h", "a", "LIVE", "d", 0, 0⟩ : MatchRow) ∈
        (⟨[⟨7, "n", "h", "a", "LIVE", "d", 0, 0⟩], []⟩ : AppState).match_rows ∧
    (⟨7, "n", "h", "a", "LIVE", "d", 0, 0⟩ : MatchRow).status ∈ active_statuses ∧
    (⟨7, "n", "h", "a", "LIVE", "d", 0, 0⟩ : MatchRow).id ∉
        (([] : List FeedMatch).filter feedAllowed).map (fun m => m.id) ∧
    ∃ r' ∈ (poll_live_matches 0 (.real (.ok []))
        ⟨[⟨7, "n", "h", "a", "LIVE", "d", 0, 0⟩], []⟩).state.match_rows,
      r'.id = (⟨7, "n", "h", "a", "LIVE", "d", 0, 0⟩ : MatchRow).id ∧
      r'.status = "FINISHED" :=
  ⟨by decide, by decide, by decide,
    poll_mark_finished_amended_C3 0 [] _ _ (by decide) (by decide) (by decide)⟩

/-- C5: in demo mode the synthetic records carry no competition field, the
allow-list filter removes them all, and therefore the cycle inserts no
match rows and no snapshots: the snapshots table is unchanged and the
matches table is exactly the old one with the cleanup UPDATE applied to an
empty seen-set, which finishes every previously active stored match. -/
theorem poll_demo_mode_C5 (now : ℤ) (st : AppState) :
    (∀ m ∈ demo_matches, m.competition = none) ∧
    demo_matches.filter feedAllowed = [] ∧
    (poll_live_matches now .demo st).state.snapshots = st.snapshots ∧
    (poll_live_matches now .demo st).state.match_rows
      = st.match_rows.map (markFinishedRow []) ∧
    (∀ r : MatchRow, r.status ∈ active_statuses →
       (markFinishedRow [] r).status = "FINISHED") ∧
    (poll_live_matches now .demo st).status = "Demo Mode" := by
  refine ⟨by decide, by decide, rfl, rfl, ?_, rfl⟩
  intro r hr
  unfold markFinishedRow
  rw [if_pos ⟨hr, List.not_mem_nil _⟩]

/-- Witness for C5 at a concrete state holding one LIVE match. -/
theorem poll_demo_mode_C5_witness :
    (⟨8, "n", "h", "a", "LIVE", "d", 1, 0⟩ : MatchRow).status ∈ active_statuses ∧
    (markFinishedRow [] ⟨8, "n", "h", "a", "LIVE", "d", 1, 0⟩).status = "FINISHED" :=
  ⟨by decide,
    (poll_demo_mode_C5 0 ⟨[], []⟩).2.2.2.2.1 ⟨8, "n", "h", "a", "LIVE", "d", 1, 0⟩
      (by decide)⟩

/-- Trimming keeps the last `SNAPSHOT_CAP` elements: the drop form. -/
lemma trimStore_eq_drop (l : List Snapshot) :
    trimStore l = l.drop (l.length - SNAPSHOT_CAP) := by
  rw [trimStore, ← List.rtake_eq_reverse_take_reverse, List.rtake]

/-- Trimming an already-trimmed history before appending is the same as
trimming the full history after appending. -/
lemma trimStore_append (pre post : List Snapshot) :
    trimStore (trimStore pre ++ post) = trimStore (pre ++ post) := by
  unfold trimStore
  rw [List.reverse_append, List.reverse_reverse, List.reverse_append]
  congr 1
  rw [List.take_append_eq_append_take, List.take_append_eq_append_take,
      List.take_take, min_eq_left (Nat.sub_le _ _)]

/-- Folding insert-then-trim from a trimmed history trims the whole
insertion sequence. -/
lemma foldl_storeStep (l pre : List Snapshot) :
    l.foldl storeStep (trimStore pre) = trimStore (pre ++ l) := by
  induction l generalizing pre with
  | nil => rw [List.foldl_nil, List.append_nil]
  | cons a t ih =>
    rw [List.foldl_cons]
    have h1 : storeStep (trimStore pre) a = trimStore (pre ++ [a]) := by
      unfold storeStep
      rw [trimStore_append]
    rw [h1, ih (pre ++ [a]), List.append_assoc, List.singleton_append]

/-- The whole history run is one trim of the insertion sequence. -/
lemma runStore_eq_trim (inserted : List Snapshot) :
    runStore inserted = trimStore inserted := by
  have h := foldl_storeStep inserted []
  rw [List.nil_append] at h
  exact h

/-- Dropping the first `k` rows of match `mid` from the global table drops
the first `k` elements of that match's per-match view. -/
lemma snapshotsFor_dropOldestFor (mid k : ℕ) (snaps : List (ℕ × Snapshot)) :
    snapshotsFor (dropOldestFor mid k snaps) mid
      = (snapshotsFor snaps mid).drop k := by
  induction snaps generalizing k with
  | nil => cases k <;> rfl
  | cons p t ih =>
    cases k with
    | zero => rfl
    | succ k' =>
      by_cases hp : p.1 = mid
      · rw [dropOldestFor, if_pos hp, ih k']
        simp [snapshotsFor, List.filter_cons, hp]
      · rw [dropOldestFor, if_neg hp]
        have hl : snapshotsFor (p :: dropOldestFor mid (k' + 1) t) mid
            = snapshotsFor (dropOldestFor mid (k' + 1) t) mid := by
          simp [snapshotsFor, List.filter_cons, hp]
        rw [hl, ih (k' + 1)]
        simp [snapshotsFor, List.filter_cons, hp]

/-- C4: iterating the per-match insert-then-trim step retains at most
`SNAPSHOT_CAP = 2000` snapshots (exactly `min n 2000` after `n` cycles);
after more than 2000 insertions the surviving snapshots are exactly the
2000 most recent ones by timestamp (the oldest are trimmed first); and the
trim DELETE on the global snapshots table has exactly this effect on the
affected match's rows. -/
theorem snapshot_cap_C4 (inserted : List Snapshot) :
    (runStore inserted).length = min inserted.length SNAPSHOT_CAP ∧
    (SNAPSHOT_CAP < inserted.length →
      runStore inserted = inserted.drop (inserted.length - SNAPSHOT_CAP)) ∧
    (∀ (snaps : List (ℕ × Snapshot)) (mid : ℕ),
      snapshotsFor (trimMatchSnapshots snaps mid) mid
        = (snapshotsFor snaps mid).drop
            ((snapshotsFor snaps mid).length - SNAPSHOT_CAP)) := by
  refine ⟨?_, ?_, ?_⟩
  · rw [runStore_eq_trim, trimStore_eq_drop, List.length_drop]
    omega
  · intro _
    rw [runStore_eq_trim, trimStore_eq_drop]
  · intro snaps mid
    exact snapshotsFor_dropOldestFor mid _ snaps

/-- Witness for C4 with 2001 insertions: exactly the last 2000 survive. -/
theorem snapshot_cap_C4_witness :
    SNAPSHOT_CAP < (List.replicate 2001 (⟨1, 0, 0, 0⟩ : Snapshot)).length ∧
    runStore (List.replicate 2001 (⟨1, 0, 0, 0⟩ : Snapshot))
      = (List.replicate 2001 (⟨1, 0, 0, 0⟩ : Snapshot)).drop
          ((List.replicate 2001 (⟨1, 0, 0, 0⟩ : Snapshot)).length - SNAPSHOT_CAP) :=
  ⟨by rw [List.length_replicate]; norm_num [SNAPSHOT_CAP],
    (snapshot_cap_C4 (List.replicate 2001 ⟨1, 0, 0, 0⟩)).2.1
      (by rw [List.length_replicate]; norm_num [SNAPSHOT_CAP])⟩

lemma sxSum_zero : sxSum 0 = 0 := rfl

/-- Gauss sum: `sxSum n = n(n-1)/2`. -/
lemma sxSum_eq (n : ℕ) : sxSum n = (n : ℚ) * ((n : ℚ) - 1) / 2 := by
  induction n with
  | zero => simp [sxSum]
  | succ k ih =>
    show sxSum k + (k : ℚ) = _
    rw [ih]
    push_cast
    ring

/-- Square pyramidal sum: `sxxSum n = n(n-1)(2n-1)/6`. -/
lemma sxxSum_eq (n : ℕ) : sxxSum n = (n : ℚ) * ((n : ℚ) - 1) * (2 * (n : ℚ) - 1) / 6 := by
  induction n with
  | zero => simp [sxxSum]
  | succ k ih =>
    show sxxSum k + (k : ℚ) ^ 2 = _
    rw [ih]
    push_cast
    ring

/-- The determinant of the degree-1 normal equations over x = 0..n-1 is
positive once n ≥ 2, so the least-squares fit of the code always has a
unique solution on 3 or more points. -/
lemma den_pos (n : ℕ) (hn : 2 ≤ n) :
    0 < (n : ℚ) * sxxSum n - sxSum n ^ 2 := by
  have h2 : (2 : ℚ) ≤ (n : ℚ) := by exact_mod_cast hn
  have key : (n : ℚ) * sxxSum n - sxSum n ^ 2
      = (n : ℚ) ^ 2 * ((n : ℚ) - 1) * ((n : ℚ) + 1) / 12 := by
    rw [sxSum_eq, sxxSum_eq]
    ring
  rw [key]
  have h1 : (0 : ℚ) < (n : ℚ) ^ 2 := by positivity
  have h3 : (0 : ℚ) < (n : ℚ) - 1 := by linarith
  have h4 : (0 : ℚ) < (n : ℚ) + 1 := by linarith
  have h5 : (0 : ℚ) < (n : ℚ) ^ 2 * ((n : ℚ) - 1) * ((n : ℚ) + 1) :=
    mul_pos (mul_pos h1 h3) h4
  linarith

/-- The x-weighted sum over a constant list: that of `replicate m c`
starting at index `k` is `c` times the index sum from `k` to `k+m-1`. -/
lemma dotIdx_replicate (m : ℕ) : ∀ (k : ℕ) (c : ℚ),
    dotIdx k (List.replicate m c) = c * (sxSum (k + m) - sxSum k) := by
  induction m with
  | zero =>
    intro k c
    simp [dotIdx]
  | succ m' ih =>
    intro k c
    show (k : ℚ) * c + dotIdx (k + 1) (List.replicate m' c) = _
    rw [ih (k + 1) c]
    have hidx : k + (m' + 1) = (k + 1) + m' := by omega
    rw [hidx]
    have hs : sxSum (k + 1) = sxSum k + (k : ℚ) := rfl
    rw [hs]
    ring

/-- The least-squares fit of a constant sequence of length ≥ 2 has slope 0
and intercept the constant. -/
lemma np_polyfit1_replicate (m : ℕ) (c : ℚ) (hm : 2 ≤ m) :
    np_polyfit1 (List.replicate m c) = some (0, c) := by
  have hm0 : ((m : ℕ) : ℚ) ≠ 0 := Nat.cast_ne_zero.mpr (by omega)
  have hden : ¬ ((m : ℚ) * sxxSum m - sxSum m ^ 2 = 0) := (den_pos m hm).ne'
  unfold np_polyfit1
  simp only [List.length_replicate, List.sum_replicate, nsmul_eq_mul,
    dotIdx_replicate, Nat.zero_add, sxSum_zero, sub_zero]
  rw [if_neg hden]
  have hnum : (m : ℚ) * (c * sxSum m) - sxSum m * ((m : ℚ) * c) = 0 := by ring
  rw [hnum, zero_div, zero_mul, sub_zero, mul_div_cancel_left₀ c hm0]

/-- The variance of a constant sequence is 0. -/
lemma np_var_replicate (m : ℕ) (c : ℚ) (hm : m ≠ 0) :
    np_var (List.replicate m c) = 0 := by
  have hm0 : ((m : ℕ) : ℚ) ≠ 0 := Nat.cast_ne_zero.mpr hm
  unfold np_var
  simp only [List.length_replicate, List.sum_replicate, nsmul_eq_mul,
    List.map_replicate]
  rw [mul_div_cancel_left₀ c hm0, sub_self]
  simp

/-- The probability value the success branch produces is the truncation of
a value clamped into [0, 100], hence itself in [0, 100]. -/
lemma truncQ_clamp_bounds (x : ℚ) :
    0 ≤ truncQ (min (max x 0) 100) ∧ truncQ (min (max x 0) 100) ≤ 100 := by
  have h0 : (0 : ℚ) ≤ min (max x 0) 100 := le_min (le_max_right x 0) (by norm_num)
  have h100 : min (max x 0) 100 ≤ (100 : ℚ) := min_le_right _ _
  unfold truncQ
  rw [if_pos h0]
  refine ⟨Int.le_floor.mpr (by exact_mod_cast h0), ?_⟩
  calc ⌊min (max x 0) 100⌋ ≤ ⌊(100 : ℚ)⌋ := Int.floor_le_floor h100
    _ = 100 := by norm_num

/-- C2: for every snapshot sequence of length at least 3 on which the
least-squares fit succeeds with some slope, the forecast probability equals
`trunc(clamp(50 + slope*10 - min(variance/10, 20), 0, 100))` computed on
the last 10 (or fewer) pressure values; the probability is always an
integer in [0, 100]; and a constant sequence yields probability 50 with
level "Moderate". -/
theorem get_forecast_formula_C2 :
    (∀ (snapshots : List Snapshot) (slope intercept : ℚ),
      3 ≤ snapshots.length →
      np_polyfit1 (lastPressures snapshots) = some (slope, intercept) →
      (get_forecast snapshots).probability =
        truncQ (min (max (50 + slope * 10
            - min (np_var (lastPressures snapshots) / 10) 20) 0) 100)) ∧
    (∀ snapshots : List Snapshot, 3 ≤ snapshots.length →
      0 ≤ (get_forecast snapshots).probability ∧
      (get_forecast snapshots).probability ≤ 100) ∧
    (∀ (n : ℕ) (s : Snapshot), 3 ≤ n →
      (get_forecast (List.replicate n s)).probability = 50 ∧
      (get_forecast (List.replicate n s)).level = "Moderate") := by
  refine ⟨?_, ?_, ?_⟩
  · intro snapshots slope intercept h3 hfit
    unfold get_forecast get_forecastWith
    rw [if_neg (by omega)]
    simp only [hfit]
  · intro snapshots h3
    unfold get_forecast get_forecastWith
    rw [if_neg (by omega)]
    cases hfit : np_polyfit1 (lastPressures snapshots) with
    | none =>
      simp only [hfit]
      exact ⟨by norm_num, by norm_num⟩
    | some sb =>
      obtain ⟨slope, b⟩ := sb
      simp only [hfit]
      exact truncQ_clamp_bounds _
  · intro n s h3
    have hlp : lastPressures (List.replicate n s)
        = List.replicate (n - (n - 10)) s.pressure_index := by
      unfold lastPressures
      rw [List.length_replicate, List.drop_replicate, List.map_replicate]
    have hm2 : 2 ≤ n - (n - 10) := by omega
    have hfit : np_polyfit1 (lastPressures (List.replicate n s))
        = some (0, s.pressure_index) := by
      rw [hlp]
      exact np_polyfit1_replicate _ _ hm2
    have hvar : np_var (lastPressures (List.replicate n s)) = 0 := by
      rw [hlp]
      exact np_var_replicate _ _ (by omega)
    unfold get_forecast get_forecastWith
    rw [if_neg (by rw [List.length_replicate]; omega)]
    simp only [hfit, hvar]
    norm_num [truncQ]

/-- Witness for C2 at a constant 3-snapshot sequence. -/
theorem get_forecast_formula_C2_witness :
    3 ≤ 3 ∧
    ((get_forecast (List.replicate 3 (⟨0, 0, 0, 0⟩ : Snapshot))).probability = 50 ∧
     (get_forecast (List.replicate 3 (⟨0, 0, 0, 0⟩ : Snapshot))).level = "Moderate") :=
  ⟨by decide, get_forecast_formula_C2.2.2 3 ⟨0, 0, 0, 0⟩ (by decide)⟩

end MomentumFC
